import Mathlib

/- Formal model of the go-pidioder repository (main.go, two revisions of the
   same file). The first revision (namespace V1) implements the gradual-fade
   design; the second revision (namespace V2) implements the gamma-corrected
   instantaneous design together with the detached query-delivery goroutine.
   Machine integers (uint8) are modelled as Nat with explicit bounds and
   mod-256 arithmetic; the pi-blaster fraction is modelled as an exact
   rational. -/

/-- Color triple, one uint8 channel value per physical channel
(main.go, type RGB). -/
structure RGB where
  r : Nat
  g : Nat
  b : Nat
  deriving DecidableEq

/-- Default GPIO pin for red (flag -r). -/
def pinR : Nat := 17

/-- Default GPIO pin for green (flag -g). -/
def pinG : Nat := 22

/-- Default GPIO pin for blue (flag -b). -/
def pinB : Nat := 27

/-- Outcome of the underlying pipe write, an input from the environment. -/
inductive WriteResult
  | ok
  | ioError
  deriving DecidableEq

/-- Events emitted to the log. -/
inductive LogEvent
  | queryChanBlockedTooLong
  deriving DecidableEq

/-- Range errors returned by setChannelInteger (the two error strings of the
source). -/
inductive RangeErr
  | over255
  | below0
  deriving DecidableEq

/-- Result of a device-writer call: the error value returned to the caller,
the writes emitted to the device sink, and the log events emitted. -/
structure DevResult where
  err : Option RangeErr
  writes : List (Nat × ℚ)
  logs : List LogEvent
  deriving DecidableEq

/-- Fraction conversion of the channel-write path:
fval := float64(val) / 255.0, exact in the rationals. -/
def toFraction (val : Nat) : ℚ := (val : ℚ) / 255

/-- setPin (identical in both revisions): formats the pin=fraction command
and writes it to the pipe. The result of pipe.Write is discarded, no log
call is made, and nil is returned unconditionally. -/
def setPin (pin : Nat) (val : ℚ) (dev : WriteResult) : DevResult :=
  { err := none, writes := [(pin, val)], logs := [] }

/-- setChannelInteger (identical in both revisions): rejects values above 255
or below 0 (both branches unreachable for uint8 inputs), otherwise converts
the value to a fraction and calls setPin. -/
def setChannelInteger (pin : Nat) (val : Nat) (dev : WriteResult) : DevResult :=
  if 255 < val then { err := some RangeErr.over255, writes := [], logs := [] }
  else if val < 0 then { err := some RangeErr.below0, writes := [], logs := [] }
  else setPin pin (toFraction val) dev

/-- Reconstruction direction of the roundtrip property stated by the spec:
round(fraction * 255). -/
def roundBack (q : ℚ) : ℤ := round (q * 255)

/-- Error from os.OpenFile on the device sink /dev/pi-blaster. -/
inductive OpenErr
  | success
  | enoent
  | other
  deriving DecidableEq

/-- Outcome of mustOpenPiBlaster: either log.Fatal ends the process, or the
process continues with a device handle that is open or not. -/
inductive Boot
  | fatalExit
  | running (deviceOpen : Bool)
  deriving DecidableEq

/-- mustOpenPiBlaster: opens the device sink once. On ENOENT the daemon is
started via attemptPiBlasterStart and err is replaced by the result of that
command; any remaining non-nil error is fatal. The open is never retried, so
after a successful daemon start the function returns the nil file handle
left over from the failed open. -/
def mustOpenPiBlaster (openErr : OpenErr) (daemonStartOk : Bool) : Boot :=
  match openErr with
  | OpenErr.success => Boot.running true
  | OpenErr.enoent => if daemonStartOk then Boot.running false else Boot.fatalExit
  | OpenErr.other => Boot.fatalExit

/-- Decimal digit accumulation performed by strconv.ParseUint with base 10. -/
def digitsVal (s : List Char) : Nat :=
  s.foldl (fun acc ch => acc * 10 + (ch.toNat - 48)) 0

/-- Success condition of strconv.ParseUint(s, 10, 8): nonempty, decimal
digits only, and a value that fits in 8 bits; everything else is an error. -/
def isValidUint8 (s : List Char) : Bool :=
  !s.isEmpty && s.all Char.isDigit && decide (digitsVal s ≤ 255)

/-- parseUint8OrZero (second revision): any ParseUint error yields 0. -/
def parseUint8OrZero (s : List Char) : Nat :=
  if isValidUint8 s then digitsVal s else 0

/-- Target built by the set action branch of actionHandler from the raw
query-string fields r, g, b. -/
def setActionTarget (sr sg sb : List Char) : RGB :=
  { r := parseUint8OrZero sr, g := parseUint8OrZero sg, b := parseUint8OrZero sb }

namespace V1

/-- Loop of the incrementer closure unrolled on its iteration count: with n
iterations remaining and loop variable cur, the emitted values are the
arguments passed to the setter function f. -/
def incrementerAux : Nat → Nat → List Nat
  | 0, _ => []
  | n + 1, cur => cur :: incrementerAux n (cur + 1)

/-- incrementer closure of the first-revision setAll: for i := cur; i <
target; i++ calls f(i); the loop runs target - cur times. -/
def incrementer (cur target : Nat) : List Nat :=
  incrementerAux (target - cur) cur

/-- Loop of the decrementer closure unrolled on its iteration count. -/
def decrementerAux : Nat → Nat → List Nat
  | 0, _ => []
  | n + 1, cur => cur :: decrementerAux n (cur - 1)

/-- decrementer closure of the first-revision setAll: for i := cur; i >
target; i-- calls f(i); the loop runs cur - target times. -/
def decrementer (cur target : Nat) : List Nat :=
  decrementerAux (cur - target) cur

/-- setter closure: incrementer when cur < target, otherwise decrementer. -/
def setter (cur target : Nat) : List Nat :=
  if cur < target then incrementer cur target else decrementer cur target

/-- setRed of the first revision: writes the channel; it never assigns the
state field r. -/
def setRed (val : Nat) (dev : WriteResult) : DevResult :=
  setChannelInteger pinR val dev

/-- setGreen of the first revision: writes the channel; it never assigns the
state field g. -/
def setGreen (val : Nat) (dev : WriteResult) : DevResult :=
  setChannelInteger pinG val dev

/-- setBlue of the first revision: writes the channel; it never assigns the
state field b. -/
def setBlue (val : Nat) (dev : WriteResult) : DevResult :=
  setChannelInteger pinB val dev

/-- setAll of the first revision: runs the setter once per channel, feeding
each loop value to the channel writer. No setter of this revision assigns
the state fields r, g, b, so the state component is returned unchanged. -/
def setAll (s : RGB) (c : RGB) (dev : WriteResult) : RGB × List (Nat × ℚ) :=
  (s,
    ((setter s.r c.r).map (fun i => (setRed i dev).writes)).flatten ++
    ((setter s.g c.g).map (fun i => (setGreen i dev).writes)).flatten ++
    ((setter s.b c.b).map (fun i => (setBlue i dev).writes)).flatten)

end V1

namespace V2

/-- correctColor (second revision): gcorrection = 0x77/0xFF and bcorrection =
0x33/0xFF; uint8(float64(v) * correction) truncates toward zero, which for
every v in 0..255 coincides with the exact floors v * 119 / 255 and
v * 51 / 255 (the float64 products never round across an integer for byte
inputs, checked exhaustively). -/
def correctColor (c : RGB) : RGB :=
  { c with g := c.g * 119 / 255, b := c.b * 51 / 255 }

/-- setRed (second revision): when setChannelInteger returns nil, the
authoritative field r is assigned the written value, otherwise it is left
unchanged. -/
def setRed (s : RGB) (val : Nat) (dev : WriteResult) : RGB × DevResult :=
  let res := setChannelInteger pinR val dev
  if res.err = none then ({ s with r := val }, res) else (s, res)

/-- setGreen (second revision): state field g assigned on success. -/
def setGreen (s : RGB) (val : Nat) (dev : WriteResult) : RGB × DevResult :=
  let res := setChannelInteger pinG val dev
  if res.err = none then ({ s with g := val }, res) else (s, res)

/-- setBlue (second revision): state field b assigned on success. -/
def setBlue (s : RGB) (val : Nat) (dev : WriteResult) : RGB × DevResult :=
  let res := setChannelInteger pinB val dev
  if res.err = none then ({ s with b := val }, res) else (s, res)

/-- setAll (second revision): corrects the requested color, then writes and
stores each corrected channel in turn. -/
def setAll (s : RGB) (c : RGB) (dev : WriteResult) : RGB × List (Nat × ℚ) :=
  let c2 := correctColor c
  let p1 := setRed s c2.r dev
  let p2 := setGreen p1.1 c2.g dev
  let p3 := setBlue p2.1 c2.b dev
  (p3.1, p1.2.writes ++ p2.2.writes ++ p3.2.writes)

/-- Messages consumed by the actor loop: Input carries a SetColor target,
Color carries a QueryColor reply channel. -/
inductive Msg
  | input (c : RGB)
  | color
  deriving DecidableEq

/-- Actor-side system state: the actor-owned color together with the number
of spawned delivery goroutines that have not yet resolved. The goroutine
closure captures only the reply channel, no color value, so nothing beyond
the count is recorded at spawn time. -/
structure Sys where
  actor : RGB
  pendingDeliveries : Nat
  deriving DecidableEq

/-- Observable effects of one actor-loop iteration. -/
inductive Eff
  | wrote (pin : Nat) (frac : ℚ)
  | spawnedDelivery
  deriving DecidableEq

/-- One iteration of the actor loop (second-revision Run): an Input message
runs setAll synchronously; a Color message spawns a detached delivery
goroutine over the reply channel and returns to the loop at once, executing
no caller-supplied code inside the loop. No color snapshot is taken at
spawn: the goroutine reads the fields b.r, b.g, b.b only when its send is
attempted (see deliverStep). -/
def runStep (s : Sys) (m : Msg) (dev : WriteResult) : Sys × List Eff :=
  match m with
  | Msg.input c =>
      let p := setAll s.actor c dev
      ({ actor := p.1, pendingDeliveries := s.pendingDeliveries },
        p.2.map (fun w => Eff.wrote w.1 w.2))
  | Msg.color =>
      ({ actor := s.actor, pendingDeliveries := s.pendingDeliveries + 1 },
        [Eff.spawnedDelivery])

/-- Resolution of one pending delivery goroutine: the goroutine evaluates
RGB of b.r, b.g, b.b at select entry, unsynchronized with the actor loop,
so the value it sends is the live authoritative color at delivery time, not
the color that was current when the query message was processed. -/
def deliverStep (s : Sys) : Sys × RGB :=
  ({ actor := s.actor, pendingDeliveries := s.pendingDeliveries - 1 }, s.actor)

/-- uint8 addition of the Go runtime: wraparound mod 256. -/
def uint8Add (a b : Nat) : Nat := (a + b) % 256

/-- uint8 subtraction of the Go runtime: wraparound mod 256. -/
def uint8Sub (a b : Nat) : Nat := (a + 256 - b % 256) % 256

/-- Target sent by the lighter action: the queried color plus 10 on every
channel, in uint8 arithmetic. -/
def lighterTarget (c : RGB) : RGB :=
  { r := uint8Add c.r 10, g := uint8Add c.g 10, b := uint8Add c.b 10 }

/-- Target sent by the darker action: the queried color minus 10 on every
channel, in uint8 arithmetic. -/
def darkerTarget (c : RGB) : RGB :=
  { r := uint8Sub c.r 10, g := uint8Sub c.g 10, b := uint8Sub c.b 10 }

/-- Outcome of the detached query-delivery goroutine. -/
inductive DeliveryOutcome
  | delivered
  | fatalExit
  deriving DecidableEq

/-- Query delivery goroutine of the second-revision Run: if the caller
receives within the 5-second bound the color is delivered; otherwise
log.Fatal runs, which logs the condition and then terminates the whole
process. -/
def queryGuard (callerReadsWithinBound : Bool) : DeliveryOutcome × List LogEvent :=
  if callerReadsWithinBound then (DeliveryOutcome.delivered, [])
  else (DeliveryOutcome.fatalExit, [LogEvent.queryChanBlockedTooLong])

/-- Whether the process is still alive after the delivery attempt:
log.Fatal calls os.Exit(1) after logging. -/
def processAlive : DeliveryOutcome → Bool
  | DeliveryOutcome.delivered => true
  | DeliveryOutcome.fatalExit => false

end V2

/-- Helper: for byte values both range branches of setChannelInteger are
unreachable and the fraction write goes through. -/
theorem setChannelInteger_le_ok (pin val : Nat) (dev : WriteResult) (h : val ≤ 255) :
    setChannelInteger pin val dev =
      { err := none, writes := [(pin, toFraction val)], logs := [] } := by
  unfold setChannelInteger setPin
  rw [if_neg (by omega), if_neg (by omega)]

/-- Helper: a byte value passed to the second-revision setRed is written and
stored. -/
theorem setRed_le (s : RGB) (val : Nat) (dev : WriteResult) (h : val ≤ 255) :
    V2.setRed s val dev =
      ({ s with r := val },
        { err := none, writes := [(pinR, toFraction val)], logs := [] }) := by
  simp [V2.setRed, setChannelInteger_le_ok pinR val dev h]

/-- Helper: a byte value passed to the second-revision setGreen is written and
stored. -/
theorem setGreen_le (s : RGB) (val : Nat) (dev : WriteResult) (h : val ≤ 255) :
    V2.setGreen s val dev =
      ({ s with g := val },
        { err := none, writes := [(pinG, toFraction val)], logs := [] }) := by
  simp [V2.setGreen, setChannelInteger_le_ok pinG val dev h]

/-- Helper: a byte value passed to the second-revision setBlue is written and
stored. -/
theorem setBlue_le (s : RGB) (val : Nat) (dev : WriteResult) (h : val ≤ 255) :
    V2.setBlue s val dev =
      ({ s with b := val },
        { err := none, writes := [(pinB, toFraction val)], logs := [] }) := by
  simp [V2.setBlue, setChannelInteger_le_ok pinB val dev h]

/-- Claim C1, counterexample: a query whose reply channel is never read does
not leave the process alive; the timeout branch of the delivery goroutine
runs log.Fatal, which terminates the process. -/
theorem query_timeout_kills_process :
    V2.processAlive (V2.queryGuard false).1 = false := rfl

/-- Claim C1, amended: when the reply is consumed within the 5-second bound
it is delivered and the process lives on; when the bound elapses first, the
condition is logged and the whole process exits via log.Fatal, so no
subsequent message is processed. -/
theorem query_guard_behavior :
    (V2.queryGuard true).1 = V2.DeliveryOutcome.delivered ∧
    V2.processAlive (V2.queryGuard true).1 = true ∧
    V2.queryGuard false =
      (V2.DeliveryOutcome.fatalExit, [LogEvent.queryChanBlockedTooLong]) ∧
    V2.processAlive (V2.queryGuard false).1 = false := by decide

/-- Claim C2: evaluating the gradual-fade setAll at current color {0,0,0}
and target {5,0,0} shows the divergence: the red loop writes the fractions
of 0, 1, 2, 3, 4 — never the target value 5 — and the authoritative state is
returned unchanged at {0,0,0} instead of ending at the target, because the
first-revision setters never assign the state fields. -/
theorem fade_misses_target_and_state (s c : RGB) (dev : WriteResult) :
    (V1.setAll s c dev).1 = s ∧
    (V1.setAll { r := 0, g := 0, b := 0 } { r := 5, g := 0, b := 0 } WriteResult.ok).2 =
      [(pinR, toFraction 0), (pinR, toFraction 1), (pinR, toFraction 2),
       (pinR, toFraction 3), (pinR, toFraction 4)] :=
  ⟨rfl, by rfl⟩

/-- Claim C3: the gamma correction leaves red unchanged, multiplies green by
119/255 and blue by 51/255 with truncation, setAll writes the corrected
fractions and stores the corrected color as the authoritative state, and on
input {200,200,200} the corrected color is {200,93,40}. -/
theorem gamma_correction_spec (s c : RGB) (dev : WriteResult)
    (hr : c.r ≤ 255) (hg : c.g ≤ 255) (hb : c.b ≤ 255) :
    V2.correctColor c = { r := c.r, g := c.g * 119 / 255, b := c.b * 51 / 255 } ∧
    (V2.setAll s c dev).1 = V2.correctColor c ∧
    (V2.setAll s c dev).2 =
      [(pinR, toFraction c.r), (pinG, toFraction (c.g * 119 / 255)),
       (pinB, toFraction (c.b * 51 / 255))] ∧
    V2.correctColor { r := 200, g := 200, b := 200 } = { r := 200, g := 93, b := 40 } := by
  have hg2 : c.g * 119 / 255 ≤ 255 := by
    calc c.g * 119 / 255 ≤ 255 * 119 / 255 :=
          Nat.div_le_div_right (Nat.mul_le_mul_right 119 hg)
      _ ≤ 255 := by norm_num
  have hb2 : c.b * 51 / 255 ≤ 255 := by
    calc c.b * 51 / 255 ≤ 255 * 51 / 255 :=
          Nat.div_le_div_right (Nat.mul_le_mul_right 51 hb)
      _ ≤ 255 := by norm_num
  refine ⟨rfl, ?_, ?_, by decide⟩ <;>
    simp [V2.setAll, V2.correctColor, setRed_le _ _ _ hr, setGreen_le _ _ _ hg2,
      setBlue_le _ _ _ hb2]

/-- Claim C3, witness: setting {200,200,200} from state {0,0,0} stores the
corrected color {200,93,40}. -/
theorem gamma_correction_spec_witness :
    (V2.setAll { r := 0, g := 0, b := 0 } { r := 200, g := 200, b := 200 }
      WriteResult.ok).1 = { r := 200, g := 93, b := 40 } := by
  have h := gamma_correction_spec { r := 0, g := 0, b := 0 }
    { r := 200, g := 200, b := 200 } WriteResult.ok (by decide) (by decide) (by decide)
  rw [h.2.1]
  exact h.2.2.2

/-- Claim C4: when the open of the device sink fails with ENOENT and the
daemon auto-start then succeeds, mustOpenPiBlaster returns without retrying
the open, so the process proceeds to serve with an unopened (nil) device
handle; when the auto-start also fails, startup halts; a successful open
proceeds normally. -/
theorem boot_enoent_serves_unopened :
    mustOpenPiBlaster OpenErr.enoent true = Boot.running false ∧
    mustOpenPiBlaster OpenErr.enoent false = Boot.fatalExit ∧
    mustOpenPiBlaster OpenErr.success true = Boot.running true := by decide

/-- Claim C5, counterexample: the actor hands off no processing-time
snapshot. A query processed at color {0,0,0}, followed by a SetColor of
{200,200,200} processed before the detached goroutine resolves, delivers
the live color {200,93,40} — not the color {0,0,0} that was current when
the query message was processed. -/
theorem query_delivery_not_snapshot :
    (V2.deliverStep
      (V2.runStep
        (V2.runStep { actor := { r := 0, g := 0, b := 0 }, pendingDeliveries := 0 }
          V2.Msg.color WriteResult.ok).1
        (V2.Msg.input { r := 200, g := 200, b := 200 }) WriteResult.ok).1).2 =
      { r := 200, g := 93, b := 40 } ∧
    ({ r := 200, g := 93, b := 40 } : RGB) ≠ { r := 0, g := 0, b := 0 } := by
  refine ⟨?_, by decide⟩
  show (V2.setAll { r := 0, g := 0, b := 0 } { r := 200, g := 200, b := 200 }
    WriteResult.ok).1 = { r := 200, g := 93, b := 40 }
  have hR := setRed_le { r := 0, g := 0, b := 0 } 200 WriteResult.ok (by norm_num)
  have hG := setGreen_le { r := 200, g := 0, b := 0 } 93 WriteResult.ok (by norm_num)
  have hB := setBlue_le { r := 200, g := 93, b := 0 } 40 WriteResult.ok (by norm_num)
  simp [V2.setAll, V2.correctColor, hR, hG, hB]

/-- Claim C5, amended: processing a QueryColor message leaves the actor
color untouched, emits only the spawn of a detached delivery goroutine (no
write, no caller-supplied code executed inside the loop), increments the
pending-delivery count, and the processing of any next message is
independent of how many deliveries are still pending; the goroutine
captures no snapshot, reading the live authoritative color only when its
delivery resolves. -/
theorem query_handoff_detached (a : RGB) (p q : Nat) (m : V2.Msg)
    (dev : WriteResult) :
    (V2.runStep { actor := a, pendingDeliveries := p } V2.Msg.color dev).1.actor = a ∧
    (V2.runStep { actor := a, pendingDeliveries := p } V2.Msg.color dev).2 =
      [V2.Eff.spawnedDelivery] ∧
    (V2.runStep { actor := a, pendingDeliveries := p }
      V2.Msg.color dev).1.pendingDeliveries = p + 1 ∧
    (V2.runStep { actor := a, pendingDeliveries := p } m dev).1.actor =
      (V2.runStep { actor := a, pendingDeliveries := q } m dev).1.actor ∧
    (V2.runStep { actor := a, pendingDeliveries := p } m dev).2 =
      (V2.runStep { actor := a, pendingDeliveries := q } m dev).2 ∧
    (V2.deliverStep { actor := a, pendingDeliveries := p }).2 = a := by
  refine ⟨rfl, rfl, rfl, ?_, ?_, rfl⟩ <;> cases m <;> rfl

/-- Claim C6, counterexample: on an I/O failure of the device write, setPin
neither returns an error nor logs anything — the failure is not surfaced. -/
theorem setPin_discards_ioerror :
    ¬ ((setPin pinR (toFraction 128) WriteResult.ioError).err ≠ none ∨
       (setPin pinR (toFraction 128) WriteResult.ioError).logs ≠ []) := by decide

/-- Claim C6, amended: setPin returns nil and logs nothing regardless of the
outcome of the underlying device write; I/O failures are silently
discarded. -/
theorem setPin_always_nil (pin : Nat) (val : ℚ) (dev : WriteResult) :
    setPin pin val dev = { err := none, writes := [(pin, val)], logs := [] } := rfl

/-- Claim C7: lighter and darker use uint8 wraparound arithmetic, adding or
subtracting 10 mod 256 per channel; lighter on {250,250,250} yields {4,4,4}
(not a saturation at {255,255,255}), and darker on {4,4,4} yields
{250,250,250}. -/
theorem lighter_darker_wraparound (c : RGB) :
    V2.lighterTarget c =
      { r := (c.r + 10) % 256, g := (c.g + 10) % 256, b := (c.b + 10) % 256 } ∧
    V2.lighterTarget { r := 250, g := 250, b := 250 } = { r := 4, g := 4, b := 4 } ∧
    V2.lighterTarget { r := 250, g := 250, b := 250 } ≠ { r := 255, g := 255, b := 255 } ∧
    V2.darkerTarget { r := 4, g := 4, b := 4 } = { r := 250, g := 250, b := 250 } :=
  ⟨rfl, by decide, by decide, by decide⟩

/-- Claim C8: converting a byte value to a fraction by v/255 and back by
round(fraction * 255) recovers v exactly for every v in 0..255. -/
theorem fraction_roundtrip (v : Nat) (h : v ≤ 255) :
    roundBack (toFraction v) = (v : ℤ) := by
  have hmul : toFraction v * 255 = (v : ℚ) := by
    unfold toFraction
    field_simp
  unfold roundBack
  rw [hmul]
  exact round_natCast v

/-- Claim C8, witness: the roundtrip recovers 93. -/
theorem fraction_roundtrip_witness : roundBack (toFraction 93) = (93 : ℤ) :=
  fraction_roundtrip 93 (by decide)

/-- Claim C9: the set action parses the three query fields independently,
any invalid field (missing, non-numeric, or out of the 8-bit range) yields
channel value 0, and a valid field yields its decimal value, which is at
most 255. -/
theorem set_action_parsing (sr sg sb : List Char) :
    (setActionTarget sr sg sb).r = parseUint8OrZero sr ∧
    (setActionTarget sr sg sb).g = parseUint8OrZero sg ∧
    (setActionTarget sr sg sb).b = parseUint8OrZero sb ∧
    (isValidUint8 sr = false → (setActionTarget sr sg sb).r = 0) ∧
    (isValidUint8 sg = false → (setActionTarget sr sg sb).g = 0) ∧
    (isValidUint8 sb = false → (setActionTarget sr sg sb).b = 0) ∧
    (isValidUint8 sr = true →
      (setActionTarget sr sg sb).r = digitsVal sr ∧ digitsVal sr ≤ 255) := by
  refine ⟨rfl, rfl, rfl, ?_, ?_, ?_, ?_⟩
  · intro h
    simp [setActionTarget, parseUint8OrZero, h]
  · intro h
    simp [setActionTarget, parseUint8OrZero, h]
  · intro h
    simp [setActionTarget, parseUint8OrZero, h]
  · intro h
    have hle : digitsVal sr ≤ 255 := by
      have h1 := h
      unfold isValidUint8 at h1
      simp [Bool.and_eq_true] at h1
      exact h1.2
    exact ⟨by simp [setActionTarget, parseUint8OrZero, h], hle⟩

/-- Claim C9, witness: a non-numeric field, an empty field and an
out-of-range field each yield 0, while a valid field of the same request
parses to its value. -/
theorem set_action_parsing_witness :
    (setActionTarget ['x'] [] ['3', '0', '0']).r = 0 ∧
    (setActionTarget ['x'] [] ['3', '0', '0']).g = 0 ∧
    (setActionTarget ['x'] [] ['3', '0', '0']).b = 0 ∧
    (setActionTarget ['2', '0', '0'] ['x'] ['4', '0']).r = digitsVal ['2', '0', '0'] ∧
    digitsVal ['2', '0', '0'] ≤ 255 :=
  ⟨(set_action_parsing ['x'] [] ['3', '0', '0']).2.2.2.1 (by decide),
   (set_action_parsing ['x'] [] ['3', '0', '0']).2.2.2.2.1 (by decide),
   (set_action_parsing ['x'] [] ['3', '0', '0']).2.2.2.2.2.1 (by decide),
   ((set_action_parsing ['2', '0', '0'] ['x'] ['4', '0']).2.2.2.2.2.2 (by decide)).1,
   ((set_action_parsing ['2', '0', '0'] ['x'] ['4', '0']).2.2.2.2.2.2 (by decide)).2⟩

/-- Claim C10: for every uint8 value the out-of-range branches of
setChannelInteger are unreachable; the call returns no error and performs
exactly one device write whose fraction val/255 lies in [0, 1]. -/
theorem setChannelInteger_total_in_range (pin val : Nat) (dev : WriteResult)
    (h : val ≤ 255) :
    setChannelInteger pin val dev =
      { err := none, writes := [(pin, toFraction val)], logs := [] } ∧
    0 ≤ toFraction val ∧ toFraction val ≤ 1 := by
  refine ⟨setChannelInteger_le_ok pin val dev h, ?_, ?_⟩
  · unfold toFraction
    positivity
  · unfold toFraction
    rw [div_le_one (by norm_num)]
    exact_mod_cast h

/-- Claim C10, witness: the boundary value 255 is accepted and written with
fraction 1. -/
theorem setChannelInteger_total_in_range_witness :
    setChannelInteger pinR 255 WriteResult.ok =
      { err := none, writes := [(pinR, toFraction 255)], logs := [] } ∧
    0 ≤ toFraction 255 ∧ toFraction 255 ≤ 1 :=
  setChannelInteger_total_in_range pinR 255 WriteResult.ok (by decide)
